import Mathlib

/-!
Shallow embedding of src/common/recordbatch/src/adapter.rs (GreptimeDB).

The file adapts between two batch-stream abstractions:
  internal (Greptime SendableRecordBatchStream) and
  external (DataFusion SendableRecordBatchStream).
A pollable stream is embedded as a script: the list of poll results it will
return, consumed one entry per poll.  Opaque foreign data (raw DataFusion
record batches, arrow schemas) is embedded as Nat; foreign errors carry a
string standing for their Debug rendering.  Each poll method becomes a pure
function from the adapter state to (result, next state).
-/

/-- A raw DataFusion record batch, opaque to the adapter layer. -/
abbrev DfRecordBatch := Nat

/-- An arrow (DataFusion-side) schema reference, opaque to the adapter layer. -/
abbrev DfSchemaRef := Nat

/-- A DataFusion error; the field is its Debug rendering, used by
format!("Read error {:?} from stream", e). -/
structure DataFusionError where
  dbg : String
deriving DecidableEq, Repr

/-- The error of the schema conversion Schema::try_from, opaque here. -/
abbrev ConvertError := Nat

/-- Internal (Greptime) schema: holds the arrow schema returned by
arrow_schema().  Arc sharing is identity in this embedding, so
SchemaRef and Schema coincide. -/
structure Schema where
  arrow_schema : DfSchemaRef
deriving DecidableEq, Repr

abbrev SchemaRef := Schema

/-- The variants of common_recordbatch::error::Error used by adapter.rs:
SchemaConversion (from try_new), PollStream (stream yielded an error item),
CreateRecordBatches (lazy resolution failure message). -/
inductive Error where
  | SchemaConversion (source : ConvertError)
  | PollStream (source : DataFusionError)
  | CreateRecordBatches (reason : String)
deriving DecidableEq, Repr

/-- The arrow error taxonomy; adapter.rs only builds
ArrowError::External(context, boxed cause). -/
inductive ArrowError where
  | External (context : String) (cause : Error)
deriving DecidableEq, Repr

/-- Internal (Greptime) RecordBatch: a schema paired with a raw DataFusion
record batch. -/
structure RecordBatch where
  schema : SchemaRef
  df_recordbatch : DfRecordBatch
deriving DecidableEq, Repr

deriving instance DecidableEq for Except

/-- Result of one poll: std::task::Poll. -/
inductive Poll (α : Type) where
  | pending : Poll α
  | ready : α → Poll α
deriving DecidableEq, Repr

/-- Internal stream (Greptime SendableRecordBatchStream): a schema, a size
hint and the script of poll results it will deliver. -/
structure SendableRecordBatchStream where
  schema : SchemaRef
  size_hint : Nat × Option Nat
  script : List (Poll (Option (Except Error RecordBatch)))
deriving DecidableEq

/-- External stream (DataFusion SendableRecordBatchStream). -/
structure DfSendableRecordBatchStream where
  schema : DfSchemaRef
  size_hint : Nat × Option Nat
  script : List (Poll (Option (Except DataFusionError DfRecordBatch)))
deriving DecidableEq

/-- Polling a scripted internal stream consumes the head of the script;
an exhausted script keeps answering Ready(None). -/
def SendableRecordBatchStream.poll_next (s : SendableRecordBatchStream) :
    Poll (Option (Except Error RecordBatch)) × SendableRecordBatchStream :=
  match s.script with
  | [] => (Poll.ready none, s)
  | r :: rest => (r, { s with script := rest })

/-- Polling a scripted external stream. -/
def DfSendableRecordBatchStream.poll_next (s : DfSendableRecordBatchStream) :
    Poll (Option (Except DataFusionError DfRecordBatch)) × DfSendableRecordBatchStream :=
  match s.script with
  | [] => (Poll.ready none, s)
  | r :: rest => (r, { s with script := rest })

/-- Greptime SendableRecordBatchStream -> DataFusion RecordBatchStream. -/
structure DfRecordBatchStreamAdapter where
  stream : SendableRecordBatchStream
deriving DecidableEq

def DfRecordBatchStreamAdapter.new (stream : SendableRecordBatchStream) :
    DfRecordBatchStreamAdapter :=
  { stream := stream }

/-- fn schema: self.stream.schema().arrow_schema().clone(). -/
def DfRecordBatchStreamAdapter.schema (a : DfRecordBatchStreamAdapter) : DfSchemaRef :=
  a.stream.schema.arrow_schema

/-- fn poll_next of DfRecordBatchStreamAdapter: match on the wrapped
stream's poll; Ok(recordbatch) becomes Ok(recordbatch.df_recordbatch),
Err(e) becomes Err(ArrowError::External("".to_owned(), Box::new(e))). -/
def DfRecordBatchStreamAdapter.poll_next (a : DfRecordBatchStreamAdapter) :
    Poll (Option (Except ArrowError DfRecordBatch)) × DfRecordBatchStreamAdapter :=
  match a.stream.poll_next with
  | (Poll.pending, s) => (Poll.pending, { stream := s })
  | (Poll.ready (some (Except.ok recordbatch)), s) =>
      (Poll.ready (some (Except.ok recordbatch.df_recordbatch)), { stream := s })
  | (Poll.ready (some (Except.error e)), s) =>
      (Poll.ready (some (Except.error (ArrowError.External "" e))), { stream := s })
  | (Poll.ready none, s) => (Poll.ready none, { stream := s })

/-- fn size_hint: self.stream.size_hint(). -/
def DfRecordBatchStreamAdapter.size_hint (a : DfRecordBatchStreamAdapter) :
    Nat × Option Nat :=
  a.stream.size_hint

/-- DataFusion SendableRecordBatchStream -> Greptime RecordBatchStream. -/
structure RecordBatchStreamAdapter where
  schema : SchemaRef
  stream : DfSendableRecordBatchStream
deriving DecidableEq

/-- fn try_new: converts the wrapped stream's schema via Schema::try_from,
wrapping a failure as error::SchemaConversion.  The fallible conversion is a
provided external capability, passed as the argument tryFrom. -/
def RecordBatchStreamAdapter.try_new
    (tryFrom : DfSchemaRef → Except ConvertError Schema)
    (stream : DfSendableRecordBatchStream) :
    Except Error RecordBatchStreamAdapter :=
  match tryFrom stream.schema with
  | Except.error e => Except.error (Error.SchemaConversion e)
  | Except.ok schema => Except.ok { schema := schema, stream := stream }

/-- fn poll_next of RecordBatchStreamAdapter: Ok(df) becomes
Ok(RecordBatch { schema: self.schema(), df_recordbatch: df }); an error item
is propagated through context(PollStreamSnafu). -/
def RecordBatchStreamAdapter.poll_next (a : RecordBatchStreamAdapter) :
    Poll (Option (Except Error RecordBatch)) × RecordBatchStreamAdapter :=
  match a.stream.poll_next with
  | (Poll.pending, s) => (Poll.pending, { a with stream := s })
  | (Poll.ready (some (Except.ok df)), s) =>
      (Poll.ready (some (Except.ok { schema := a.schema, df_recordbatch := df })),
        { a with stream := s })
  | (Poll.ready (some (Except.error e)), s) =>
      (Poll.ready (some (Except.error (Error.PollStream e))), { a with stream := s })
  | (Poll.ready none, s) => (Poll.ready none, { a with stream := s })

/-- fn size_hint: self.stream.size_hint(). -/
def RecordBatchStreamAdapter.size_hint (a : RecordBatchStreamAdapter) :
    Nat × Option Nat :=
  a.stream.size_hint

/-- The FutureStream: a one-shot future that reports Pending a fixed number
of times before resolving to an external stream or a DataFusionError. -/
structure FutureStream where
  pendings : Nat
  outcome : Except DataFusionError DfSendableRecordBatchStream
deriving DecidableEq

/-- One poll of the future: count down the pendings, then stay resolved. -/
def FutureStream.poll (f : FutureStream) :
    Poll (Except DataFusionError DfSendableRecordBatchStream) × FutureStream :=
  match f.pendings with
  | 0 => (Poll.ready f.outcome, f)
  | Nat.succ n => (Poll.pending, { f with pendings := n })

/-- enum AsyncRecordBatchStreamAdapterState. -/
inductive AsyncRecordBatchStreamAdapterState where
  | Uninit (fut : FutureStream)
  | Inited (r : Except DataFusionError DfSendableRecordBatchStream)
deriving DecidableEq

/-- DataFusion Future of SendableRecordBatchStream -> Greptime
RecordBatchStream. -/
structure AsyncRecordBatchStreamAdapter where
  schema : SchemaRef
  state : AsyncRecordBatchStreamAdapterState
deriving DecidableEq

/-- fn new: starts in the Uninit state holding the future. -/
def AsyncRecordBatchStreamAdapter.new (schema : SchemaRef) (stream : FutureStream) :
    AsyncRecordBatchStreamAdapter :=
  { schema := schema, state := AsyncRecordBatchStreamAdapterState.Uninit stream }

/-- The Inited arm of AsyncRecordBatchStreamAdapter::poll_next.
Ok(stream): delegate to the stream, wrapping Ok(df) with the held schema and
an error item through context(PollStreamSnafu).  Err(e): yield the
CreateRecordBatches error whose reason is
format!("Read error {:?} from stream", e). -/
def AsyncRecordBatchStreamAdapter.pollInited (schema : SchemaRef)
    (r : Except DataFusionError DfSendableRecordBatchStream) :
    Poll (Option (Except Error RecordBatch)) × AsyncRecordBatchStreamAdapterState :=
  match r with
  | Except.ok stream =>
    match stream.poll_next with
    | (Poll.pending, s) =>
        (Poll.pending, AsyncRecordBatchStreamAdapterState.Inited (Except.ok s))
    | (Poll.ready (some (Except.ok df)), s) =>
        (Poll.ready (some (Except.ok { schema := schema, df_recordbatch := df })),
          AsyncRecordBatchStreamAdapterState.Inited (Except.ok s))
    | (Poll.ready (some (Except.error e)), s) =>
        (Poll.ready (some (Except.error (Error.PollStream e))),
          AsyncRecordBatchStreamAdapterState.Inited (Except.ok s))
    | (Poll.ready none, s) =>
        (Poll.ready none, AsyncRecordBatchStreamAdapterState.Inited (Except.ok s))
  | Except.error e =>
    (Poll.ready (some (Except.error (Error.CreateRecordBatches
        ("Read error " ++ e.dbg ++ " from stream")))),
      AsyncRecordBatchStreamAdapterState.Inited (Except.error e))

/-- fn poll_next of AsyncRecordBatchStreamAdapter.  In the Uninit state it
drives the future one step: ready! returns Pending while the future is
pending, and on resolution the state becomes Inited and the loop continues
to the Inited arm within the same call. -/
def AsyncRecordBatchStreamAdapter.poll_next (a : AsyncRecordBatchStreamAdapter) :
    Poll (Option (Except Error RecordBatch)) × AsyncRecordBatchStreamAdapter :=
  match a.state with
  | AsyncRecordBatchStreamAdapterState.Uninit fut =>
    match fut.poll with
    | (Poll.pending, f) =>
        (Poll.pending, { a with state := AsyncRecordBatchStreamAdapterState.Uninit f })
    | (Poll.ready outcome, _) =>
        match AsyncRecordBatchStreamAdapter.pollInited a.schema outcome with
        | (p, st) => (p, { a with state := st })
  | AsyncRecordBatchStreamAdapterState.Inited r =>
    match AsyncRecordBatchStreamAdapter.pollInited a.schema r with
    | (p, st) => (p, { a with state := st })

/-- fn size_hint of the lazy adapter: not supported, always (0, None). -/
def AsyncRecordBatchStreamAdapter.size_hint (_ : AsyncRecordBatchStreamAdapter) :
    Nat × Option Nat :=
  (0, none)

/-- Poll an adapter n times, collecting the outputs and the final state. -/
def dfRun : DfRecordBatchStreamAdapter → Nat →
    List (Poll (Option (Except ArrowError DfRecordBatch))) × DfRecordBatchStreamAdapter
  | a, 0 => ([], a)
  | a, Nat.succ n =>
    ((a.poll_next).1 :: (dfRun (a.poll_next).2 n).1, (dfRun (a.poll_next).2 n).2)

def rbRun : RecordBatchStreamAdapter → Nat →
    List (Poll (Option (Except Error RecordBatch))) × RecordBatchStreamAdapter
  | a, 0 => ([], a)
  | a, Nat.succ n =>
    ((a.poll_next).1 :: (rbRun (a.poll_next).2 n).1, (rbRun (a.poll_next).2 n).2)

def asyncRun : AsyncRecordBatchStreamAdapter → Nat →
    List (Poll (Option (Except Error RecordBatch))) × AsyncRecordBatchStreamAdapter
  | a, 0 => ([], a)
  | a, Nat.succ n =>
    ((a.poll_next).1 :: (asyncRun (a.poll_next).2 n).1, (asyncRun (a.poll_next).2 n).2)

/-- The successful payloads of a poll sequence, in order. -/
def okItems {ε α : Type} : List (Poll (Option (Except ε α))) → List α
  | [] => []
  | Poll.ready (some (Except.ok x)) :: rest => x :: okItems rest
  | Poll.pending :: rest => okItems rest
  | Poll.ready none :: rest => okItems rest
  | Poll.ready (some (Except.error _)) :: rest => okItems rest

/-- Claim C2: poll contract of the outbound DfRecordBatchStreamAdapter:
Pending and Ready(None) are forwarded unchanged; a successful item yields
the contained raw DataFusion batch; an internal error item yields
ArrowError::External with empty context string carrying the error as cause. -/
theorem dfAdapter_poll_contract :
    (∀ (sch : SchemaRef) (sh : Nat × Option Nat)
        (rest : List (Poll (Option (Except Error RecordBatch)))),
      DfRecordBatchStreamAdapter.poll_next ⟨⟨sch, sh, Poll.pending :: rest⟩⟩ =
        (Poll.pending, ⟨⟨sch, sh, rest⟩⟩)) ∧
    (∀ (sch : SchemaRef) (sh : Nat × Option Nat)
        (rest : List (Poll (Option (Except Error RecordBatch)))),
      DfRecordBatchStreamAdapter.poll_next ⟨⟨sch, sh, Poll.ready none :: rest⟩⟩ =
        (Poll.ready none, ⟨⟨sch, sh, rest⟩⟩)) ∧
    (∀ (sch : SchemaRef) (sh : Nat × Option Nat)
        (rest : List (Poll (Option (Except Error RecordBatch)))) (rb : RecordBatch),
      DfRecordBatchStreamAdapter.poll_next
          ⟨⟨sch, sh, Poll.ready (some (Except.ok rb)) :: rest⟩⟩ =
        (Poll.ready (some (Except.ok rb.df_recordbatch)), ⟨⟨sch, sh, rest⟩⟩)) ∧
    (∀ (sch : SchemaRef) (sh : Nat × Option Nat)
        (rest : List (Poll (Option (Except Error RecordBatch)))) (e : Error),
      DfRecordBatchStreamAdapter.poll_next
          ⟨⟨sch, sh, Poll.ready (some (Except.error e)) :: rest⟩⟩ =
        (Poll.ready (some (Except.error (ArrowError.External "" e))), ⟨⟨sch, sh, rest⟩⟩)) := by
  refine ⟨?_, ?_, ?_, ?_⟩ <;> intros <;> rfl

/-- Claim C4: poll contract of the inbound RecordBatchStreamAdapter:
Pending and Ready(None) are forwarded unchanged; an external error item is
propagated as Error.PollStream; a raw batch is paired with the schema the
adapter holds from construction. -/
theorem rbAdapter_poll_contract :
    (∀ (isch : SchemaRef) (dsch : DfSchemaRef) (sh : Nat × Option Nat)
        (rest : List (Poll (Option (Except DataFusionError DfRecordBatch)))),
      RecordBatchStreamAdapter.poll_next ⟨isch, ⟨dsch, sh, Poll.pending :: rest⟩⟩ =
        (Poll.pending, ⟨isch, ⟨dsch, sh, rest⟩⟩)) ∧
    (∀ (isch : SchemaRef) (dsch : DfSchemaRef) (sh : Nat × Option Nat)
        (rest : List (Poll (Option (Except DataFusionError DfRecordBatch)))),
      RecordBatchStreamAdapter.poll_next ⟨isch, ⟨dsch, sh, Poll.ready none :: rest⟩⟩ =
        (Poll.ready none, ⟨isch, ⟨dsch, sh, rest⟩⟩)) ∧
    (∀ (isch : SchemaRef) (dsch : DfSchemaRef) (sh : Nat × Option Nat)
        (rest : List (Poll (Option (Except DataFusionError DfRecordBatch))))
        (e : DataFusionError),
      RecordBatchStreamAdapter.poll_next
          ⟨isch, ⟨dsch, sh, Poll.ready (some (Except.error e)) :: rest⟩⟩ =
        (Poll.ready (some (Except.error (Error.PollStream e))), ⟨isch, ⟨dsch, sh, rest⟩⟩)) ∧
    (∀ (isch : SchemaRef) (dsch : DfSchemaRef) (sh : Nat × Option Nat)
        (rest : List (Poll (Option (Except DataFusionError DfRecordBatch))))
        (df : DfRecordBatch),
      RecordBatchStreamAdapter.poll_next
          ⟨isch, ⟨dsch, sh, Poll.ready (some (Except.ok df)) :: rest⟩⟩ =
        (Poll.ready (some (Except.ok { schema := isch, df_recordbatch := df })),
          ⟨isch, ⟨dsch, sh, rest⟩⟩)) := by
  refine ⟨?_, ?_, ?_, ?_⟩ <;> intros <;> rfl

/-- Claim C8: size_hint contract: the outbound and inbound adapters return
exactly the wrapped stream's size hint in every state; the lazy adapter
returns (0, None) in every state. -/
theorem size_hint_contract :
    (∀ (a : DfRecordBatchStreamAdapter), a.size_hint = a.stream.size_hint) ∧
    (∀ (a : RecordBatchStreamAdapter), a.size_hint = a.stream.size_hint) ∧
    (∀ (a : AsyncRecordBatchStreamAdapter), a.size_hint = (0, none)) :=
  ⟨fun _ => rfl, fun _ => rfl, fun _ => rfl⟩

lemma dfAdapter_poll_next_schema (a : DfRecordBatchStreamAdapter) :
    (a.poll_next).2.schema = a.schema := by
  obtain ⟨⟨sch, sh, script⟩⟩ := a
  cases script with
  | nil => rfl
  | cons r rest =>
    cases r with
    | pending => rfl
    | ready v =>
      cases v with
      | none => rfl
      | some x => cases x <;> rfl

lemma rbAdapter_poll_next_schema (a : RecordBatchStreamAdapter) :
    (a.poll_next).2.schema = a.schema := by
  obtain ⟨isch, ⟨dsch, sh, script⟩⟩ := a
  cases script with
  | nil => rfl
  | cons r rest =>
    cases r with
    | pending => rfl
    | ready v =>
      cases v with
      | none => rfl
      | some x => cases x <;> rfl

lemma asyncAdapter_poll_next_schema (a : AsyncRecordBatchStreamAdapter) :
    (a.poll_next).2.schema = a.schema := by
  obtain ⟨sch, st⟩ := a
  cases st with
  | Uninit fut =>
    obtain ⟨pendings, outcome⟩ := fut
    cases pendings with
    | zero =>
      cases outcome with
      | error e => rfl
      | ok s =>
        obtain ⟨dsch, sh, script⟩ := s
        cases script with
        | nil => rfl
        | cons r rest =>
          cases r with
          | pending => rfl
          | ready v =>
            cases v with
            | none => rfl
            | some x => cases x <;> rfl
    | succ n => rfl
  | Inited r =>
    cases r with
    | error e => rfl
    | ok s =>
      obtain ⟨dsch, sh, script⟩ := s
      cases script with
      | nil => rfl
      | cons r rest =>
        cases r with
        | pending => rfl
        | ready v =>
          cases v with
          | none => rfl
          | some x => cases x <;> rfl

/-- Claim C5: the schema exposed by each adapter never changes over its
lifecycle: one poll step leaves it unchanged for all three adapters (hence
any number of polls does, in any state of the lazy state machine), and the
lazy adapter constructed by new returns exactly the supplied schema. -/
theorem schema_stable :
    (∀ (a : DfRecordBatchStreamAdapter), (a.poll_next).2.schema = a.schema) ∧
    (∀ (a : RecordBatchStreamAdapter), (a.poll_next).2.schema = a.schema) ∧
    (∀ (a : AsyncRecordBatchStreamAdapter), (a.poll_next).2.schema = a.schema) ∧
    (∀ (sch : SchemaRef) (fut : FutureStream),
      (AsyncRecordBatchStreamAdapter.new sch fut).schema = sch) :=
  ⟨dfAdapter_poll_next_schema, rbAdapter_poll_next_schema,
   asyncAdapter_poll_next_schema, fun _ _ => rfl⟩

/-- Claim C10: the lazy adapter never consults the resolved stream's own
schema: the poll output is identical for two resolved streams differing
only in their schema (and size hint), and a batch yielded by the resolved
stream is emitted carrying the constructor-supplied schema unconditionally. -/
theorem async_schema_unchecked :
    (∀ (sch : SchemaRef) (s1 s2 : DfSchemaRef) (sh1 sh2 : Nat × Option Nat)
        (script : List (Poll (Option (Except DataFusionError DfRecordBatch)))),
      (AsyncRecordBatchStreamAdapter.poll_next
          ⟨sch, AsyncRecordBatchStreamAdapterState.Inited (Except.ok ⟨s1, sh1, script⟩)⟩).1 =
        (AsyncRecordBatchStreamAdapter.poll_next
          ⟨sch, AsyncRecordBatchStreamAdapterState.Inited (Except.ok ⟨s2, sh2, script⟩)⟩).1) ∧
    (∀ (sch : SchemaRef) (ssch : DfSchemaRef) (sh : Nat × Option Nat) (df : DfRecordBatch)
        (rest : List (Poll (Option (Except DataFusionError DfRecordBatch)))),
      (AsyncRecordBatchStreamAdapter.poll_next
          ⟨sch, AsyncRecordBatchStreamAdapterState.Inited
            (Except.ok ⟨ssch, sh, Poll.ready (some (Except.ok df)) :: rest⟩)⟩).1 =
        Poll.ready (some (Except.ok { schema := sch, df_recordbatch := df }))) := by
  constructor
  · intro sch s1 s2 sh1 sh2 script
    cases script with
    | nil => rfl
    | cons r rest =>
      cases r with
      | pending => rfl
      | ready v =>
        cases v with
        | none => rfl
        | some x => cases x <;> rfl
  · intro sch ssch sh df rest
    rfl

/-- Claim C6: Uninit-state contract of the lazy adapter: a pending future
leaves the adapter pending and Uninit (still holding the future); with the
future resolved, the poll behaves exactly as the Inited state in the same
call; so for a future pending N times, polls 1..N return Pending and poll
N+1 already produces the Inited behaviour with no extra pending round trip. -/
theorem async_uninit_poll_contract :
    (∀ (sch : SchemaRef) (n : Nat)
        (outcome : Except DataFusionError DfSendableRecordBatchStream),
      AsyncRecordBatchStreamAdapter.poll_next
          ⟨sch, AsyncRecordBatchStreamAdapterState.Uninit ⟨n + 1, outcome⟩⟩ =
        (Poll.pending, ⟨sch, AsyncRecordBatchStreamAdapterState.Uninit ⟨n, outcome⟩⟩)) ∧
    (∀ (sch : SchemaRef) (outcome : Except DataFusionError DfSendableRecordBatchStream),
      AsyncRecordBatchStreamAdapter.poll_next
          ⟨sch, AsyncRecordBatchStreamAdapterState.Uninit ⟨0, outcome⟩⟩ =
        AsyncRecordBatchStreamAdapter.poll_next
          ⟨sch, AsyncRecordBatchStreamAdapterState.Inited outcome⟩) ∧
    (∀ (sch : SchemaRef) (N : Nat)
        (outcome : Except DataFusionError DfSendableRecordBatchStream),
      asyncRun ⟨sch, AsyncRecordBatchStreamAdapterState.Uninit ⟨N, outcome⟩⟩ (N + 1) =
        (List.replicate N Poll.pending ++
          [(AsyncRecordBatchStreamAdapter.poll_next
              ⟨sch, AsyncRecordBatchStreamAdapterState.Inited outcome⟩).1],
         (AsyncRecordBatchStreamAdapter.poll_next
              ⟨sch, AsyncRecordBatchStreamAdapterState.Inited outcome⟩).2)) := by
  refine ⟨fun sch n outcome => rfl, fun sch outcome => rfl, ?_⟩
  intro sch N outcome
  induction N with
  | zero =>
    cases h : AsyncRecordBatchStreamAdapter.poll_next
        ⟨sch, AsyncRecordBatchStreamAdapterState.Inited outcome⟩ with
    | mk p a1 =>
      have h0 : AsyncRecordBatchStreamAdapter.poll_next
          ⟨sch, AsyncRecordBatchStreamAdapterState.Uninit ⟨0, outcome⟩⟩ = (p, a1) := h
      simp [asyncRun, h0, h]
  | succ n ih =>
    have hp : AsyncRecordBatchStreamAdapter.poll_next
        ⟨sch, AsyncRecordBatchStreamAdapterState.Uninit ⟨n + 1, outcome⟩⟩ =
        (Poll.pending, ⟨sch, AsyncRecordBatchStreamAdapterState.Uninit ⟨n, outcome⟩⟩) := rfl
    have unf : asyncRun
        ⟨sch, AsyncRecordBatchStreamAdapterState.Uninit ⟨n + 1, outcome⟩⟩ (n + 1 + 1) =
        ((AsyncRecordBatchStreamAdapter.poll_next
            ⟨sch, AsyncRecordBatchStreamAdapterState.Uninit ⟨n + 1, outcome⟩⟩).1 ::
          (asyncRun (AsyncRecordBatchStreamAdapter.poll_next
            ⟨sch, AsyncRecordBatchStreamAdapterState.Uninit ⟨n + 1, outcome⟩⟩).2 (n + 1)).1,
         (asyncRun (AsyncRecordBatchStreamAdapter.poll_next
            ⟨sch, AsyncRecordBatchStreamAdapterState.Uninit ⟨n + 1, outcome⟩⟩).2 (n + 1)).2) :=
      rfl
    rw [unf, hp]
    simp only [ih]
    simp [List.replicate_succ]

lemma asyncRun_inited_error
    (sch : SchemaRef) (e : DataFusionError) (n : Nat) :
    asyncRun ⟨sch, AsyncRecordBatchStreamAdapterState.Inited (Except.error e)⟩ n =
      (List.replicate n (Poll.ready (some (Except.error (Error.CreateRecordBatches
          ("Read error " ++ e.dbg ++ " from stream"))))),
       ⟨sch, AsyncRecordBatchStreamAdapterState.Inited (Except.error e)⟩) := by
  induction n with
  | zero => rfl
  | succ m ih =>
    have hp : AsyncRecordBatchStreamAdapter.poll_next
        ⟨sch, AsyncRecordBatchStreamAdapterState.Inited (Except.error e)⟩ =
        (Poll.ready (some (Except.error (Error.CreateRecordBatches
            ("Read error " ++ e.dbg ++ " from stream")))),
         ⟨sch, AsyncRecordBatchStreamAdapterState.Inited (Except.error e)⟩) := rfl
    have unf : asyncRun
        ⟨sch, AsyncRecordBatchStreamAdapterState.Inited (Except.error e)⟩ (m + 1) =
        ((AsyncRecordBatchStreamAdapter.poll_next
            ⟨sch, AsyncRecordBatchStreamAdapterState.Inited (Except.error e)⟩).1 ::
          (asyncRun (AsyncRecordBatchStreamAdapter.poll_next
            ⟨sch, AsyncRecordBatchStreamAdapterState.Inited (Except.error e)⟩).2 m).1,
         (asyncRun (AsyncRecordBatchStreamAdapter.poll_next
            ⟨sch, AsyncRecordBatchStreamAdapterState.Inited (Except.error e)⟩).2 m).2) :=
      rfl
    rw [unf, hp]
    simp only [ih]
    simp [List.replicate_succ]

/-- Claim C7: when the lazy adapter's future resolves to a failure e, that
poll already yields the Ready error item whose CreateRecordBatches reason
embeds the Debug rendering of e and stores Inited(Err(e)); afterwards every
one of the next n polls (for every n) returns the same Ready error item and
the state stays Inited(Err(e)) throughout: the failure is never replaced
and the adapter never reaches exhaustion. -/
theorem async_resolution_failure_repeats :
    (∀ (sch : SchemaRef) (e : DataFusionError),
      AsyncRecordBatchStreamAdapter.poll_next
          ⟨sch, AsyncRecordBatchStreamAdapterState.Uninit ⟨0, Except.error e⟩⟩ =
        (Poll.ready (some (Except.error (Error.CreateRecordBatches
            ("Read error " ++ e.dbg ++ " from stream")))),
         ⟨sch, AsyncRecordBatchStreamAdapterState.Inited (Except.error e)⟩)) ∧
    (∀ (sch : SchemaRef) (e : DataFusionError) (n : Nat),
      asyncRun ⟨sch, AsyncRecordBatchStreamAdapterState.Inited (Except.error e)⟩ n =
        (List.replicate n (Poll.ready (some (Except.error (Error.CreateRecordBatches
            ("Read error " ++ e.dbg ++ " from stream"))))),
         ⟨sch, AsyncRecordBatchStreamAdapterState.Inited (Except.error e)⟩)) :=
  ⟨fun _ _ => rfl, asyncRun_inited_error⟩

/-- Claim C9 (divergence witness): a lazy adapter whose future resolved to a
failure has its terminal condition observed on the first poll; the code then
answers the second poll with the same Ready error item, not with Ready(None)
(exhaustion), so the poll-after-terminal contract of the spec is not met. -/
theorem async_poll_after_failure_not_exhaustion :
    ((asyncRun ⟨⟨0⟩, AsyncRecordBatchStreamAdapterState.Inited
        (Except.error ⟨"boom"⟩)⟩ 1).2.poll_next).1 =
      Poll.ready (some (Except.error (Error.CreateRecordBatches
        "Read error boom from stream"))) ∧
    ((asyncRun ⟨⟨0⟩, AsyncRecordBatchStreamAdapterState.Inited
        (Except.error ⟨"boom"⟩)⟩ 1).2.poll_next).1 ≠ Poll.ready none := by
  exact ⟨rfl, by decide⟩

lemma dfRun_cons (sch : SchemaRef) (sh : Nat × Option Nat)
    (r : Poll (Option (Except Error RecordBatch)))
    (rest : List (Poll (Option (Except Error RecordBatch)))) (n : Nat) :
    dfRun ⟨⟨sch, sh, r :: rest⟩⟩ (n + 1) =
      ((DfRecordBatchStreamAdapter.poll_next ⟨⟨sch, sh, r :: rest⟩⟩).1 ::
        (dfRun ⟨⟨sch, sh, rest⟩⟩ n).1, (dfRun ⟨⟨sch, sh, rest⟩⟩ n).2) := by
  cases r with
  | pending => rfl
  | ready v =>
    cases v with
    | none => rfl
    | some x => cases x <;> rfl

lemma rbRun_cons (isch : SchemaRef) (dsch : DfSchemaRef) (sh : Nat × Option Nat)
    (r : Poll (Option (Except DataFusionError DfRecordBatch)))
    (rest : List (Poll (Option (Except DataFusionError DfRecordBatch)))) (n : Nat) :
    rbRun ⟨isch, ⟨dsch, sh, r :: rest⟩⟩ (n + 1) =
      ((RecordBatchStreamAdapter.poll_next ⟨isch, ⟨dsch, sh, r :: rest⟩⟩).1 ::
        (rbRun ⟨isch, ⟨dsch, sh, rest⟩⟩ n).1, (rbRun ⟨isch, ⟨dsch, sh, rest⟩⟩ n).2) := by
  cases r with
  | pending => rfl
  | ready v =>
    cases v with
    | none => rfl
    | some x => cases x <;> rfl

lemma asyncRun_cons (isch : SchemaRef) (dsch : DfSchemaRef) (sh : Nat × Option Nat)
    (r : Poll (Option (Except DataFusionError DfRecordBatch)))
    (rest : List (Poll (Option (Except DataFusionError DfRecordBatch)))) (n : Nat) :
    asyncRun ⟨isch, AsyncRecordBatchStreamAdapterState.Inited
        (Except.ok ⟨dsch, sh, r :: rest⟩)⟩ (n + 1) =
      ((AsyncRecordBatchStreamAdapter.poll_next ⟨isch,
          AsyncRecordBatchStreamAdapterState.Inited (Except.ok ⟨dsch, sh, r :: rest⟩)⟩).1 ::
        (asyncRun ⟨isch, AsyncRecordBatchStreamAdapterState.Inited
          (Except.ok ⟨dsch, sh, rest⟩)⟩ n).1,
       (asyncRun ⟨isch, AsyncRecordBatchStreamAdapterState.Inited
          (Except.ok ⟨dsch, sh, rest⟩)⟩ n).2) := by
  cases r with
  | pending => rfl
  | ready v =>
    cases v with
    | none => rfl
    | some x => cases x <;> rfl

lemma dfRun_ok (sch : SchemaRef) (sh : Nat × Option Nat)
    (script : List (Poll (Option (Except Error RecordBatch)))) :
    okItems (dfRun ⟨⟨sch, sh, script⟩⟩ script.length).1 =
      List.map RecordBatch.df_recordbatch (okItems script) := by
  induction script with
  | nil => rfl
  | cons r rest ih =>
    rw [List.length_cons, dfRun_cons]
    cases r with
    | pending =>
      simpa [okItems, DfRecordBatchStreamAdapter.poll_next,
        SendableRecordBatchStream.poll_next] using ih
    | ready v =>
      cases v with
      | none =>
        simpa [okItems, DfRecordBatchStreamAdapter.poll_next,
          SendableRecordBatchStream.poll_next] using ih
      | some x =>
        cases x <;>
          simpa [okItems, DfRecordBatchStreamAdapter.poll_next,
            SendableRecordBatchStream.poll_next] using ih

lemma rbRun_ok (isch : SchemaRef) (dsch : DfSchemaRef) (sh : Nat × Option Nat)
    (script : List (Poll (Option (Except DataFusionError DfRecordBatch)))) :
    List.map RecordBatch.df_recordbatch
        (okItems (rbRun ⟨isch, ⟨dsch, sh, script⟩⟩ script.length).1) =
      okItems script := by
  induction script with
  | nil => rfl
  | cons r rest ih =>
    rw [List.length_cons, rbRun_cons]
    cases r with
    | pending =>
      simpa [okItems, RecordBatchStreamAdapter.poll_next,
        DfSendableRecordBatchStream.poll_next] using ih
    | ready v =>
      cases v with
      | none =>
        simpa [okItems, RecordBatchStreamAdapter.poll_next,
          DfSendableRecordBatchStream.poll_next] using ih
      | some x =>
        cases x <;>
          simpa [okItems, RecordBatchStreamAdapter.poll_next,
            DfSendableRecordBatchStream.poll_next] using ih

lemma asyncRun_ok (isch : SchemaRef) (dsch : DfSchemaRef) (sh : Nat × Option Nat)
    (script : List (Poll (Option (Except DataFusionError DfRecordBatch)))) :
    List.map RecordBatch.df_recordbatch
        (okItems (asyncRun ⟨isch, AsyncRecordBatchStreamAdapterState.Inited
            (Except.ok ⟨dsch, sh, script⟩)⟩ script.length).1) =
      okItems script := by
  induction script with
  | nil => rfl
  | cons r rest ih =>
    rw [List.length_cons, asyncRun_cons]
    cases r with
    | pending =>
      simpa [okItems, AsyncRecordBatchStreamAdapter.poll_next,
        AsyncRecordBatchStreamAdapter.pollInited,
        DfSendableRecordBatchStream.poll_next] using ih
    | ready v =>
      cases v with
      | none =>
        simpa [okItems, AsyncRecordBatchStreamAdapter.poll_next,
          AsyncRecordBatchStreamAdapter.pollInited,
          DfSendableRecordBatchStream.poll_next] using ih
      | some x =>
        cases x <;>
          simpa [okItems, AsyncRecordBatchStreamAdapter.poll_next,
            AsyncRecordBatchStreamAdapter.pollInited,
            DfSendableRecordBatchStream.poll_next] using ih

/-- Claim C1: over a full run of each adapter on the script of its wrapped
stream, the successful items come out in identical order with identical
batch content, only re-enveloped: the outbound adapter emits exactly the
df_recordbatch payloads of the internal items, and the inbound and lazy
(initialized-success) adapters emit internal envelopes whose df_recordbatch
payloads are exactly the raw batches of the external items. -/
theorem adapters_preserve_ok_batches :
    (∀ (sch : SchemaRef) (sh : Nat × Option Nat)
        (script : List (Poll (Option (Except Error RecordBatch)))),
      okItems (dfRun ⟨⟨sch, sh, script⟩⟩ script.length).1 =
        List.map RecordBatch.df_recordbatch (okItems script)) ∧
    (∀ (isch : SchemaRef) (dsch : DfSchemaRef) (sh : Nat × Option Nat)
        (script : List (Poll (Option (Except DataFusionError DfRecordBatch)))),
      List.map RecordBatch.df_recordbatch
          (okItems (rbRun ⟨isch, ⟨dsch, sh, script⟩⟩ script.length).1) =
        okItems script) ∧
    (∀ (isch : SchemaRef) (dsch : DfSchemaRef) (sh : Nat × Option Nat)
        (script : List (Poll (Option (Except DataFusionError DfRecordBatch)))),
      List.map RecordBatch.df_recordbatch
          (okItems (asyncRun ⟨isch, AsyncRecordBatchStreamAdapterState.Inited
              (Except.ok ⟨dsch, sh, script⟩)⟩ script.length).1) =
        okItems script) :=
  ⟨dfRun_ok, rbRun_ok, asyncRun_ok⟩

/-- Claim C3: try_new fails exactly when the fallible schema conversion of
the wrapped stream's schema fails; the failure is wrapped as
Error.SchemaConversion and no adapter is produced, while a successful
conversion produces the adapter holding exactly the converted schema. -/
theorem recordBatchStreamAdapter_try_new_contract
    (tryFrom : DfSchemaRef → Except ConvertError Schema)
    (stream : DfSendableRecordBatchStream) :
    (∀ e : ConvertError, tryFrom stream.schema = Except.error e →
        RecordBatchStreamAdapter.try_new tryFrom stream =
          Except.error (Error.SchemaConversion e)) ∧
    (∀ s : Schema, tryFrom stream.schema = Except.ok s →
        RecordBatchStreamAdapter.try_new tryFrom stream =
          Except.ok { schema := s, stream := stream }) ∧
    ((∃ a, RecordBatchStreamAdapter.try_new tryFrom stream = Except.ok a) ↔
      ∃ s, tryFrom stream.schema = Except.ok s) := by
  refine ⟨fun e he => ?_, fun s hs => ?_, ?_⟩
  · simp [RecordBatchStreamAdapter.try_new, he]
  · simp [RecordBatchStreamAdapter.try_new, hs]
  · constructor
    · rintro ⟨a, ha⟩
      cases hc : tryFrom stream.schema with
      | error e => simp [RecordBatchStreamAdapter.try_new, hc] at ha
      | ok s => exact ⟨s, rfl⟩
    · rintro ⟨s, hs⟩
      exact ⟨{ schema := s, stream := stream }, by
        simp [RecordBatchStreamAdapter.try_new, hs]⟩

/-- Witness for C3: both branches of the contract applied at a concrete
stream, a conversion that fails with code 7 and one that succeeds with the
schema 5. -/
theorem recordBatchStreamAdapter_try_new_contract_witness :
    RecordBatchStreamAdapter.try_new (fun _ => Except.error 7) ⟨3, (0, none), []⟩ =
      Except.error (Error.SchemaConversion 7) ∧
    RecordBatchStreamAdapter.try_new (fun _ => Except.ok ⟨5⟩) ⟨3, (0, none), []⟩ =
      Except.ok { schema := ⟨5⟩, stream := ⟨3, (0, none), []⟩ } :=
  ⟨(recordBatchStreamAdapter_try_new_contract (fun _ => Except.error 7)
      ⟨3, (0, none), []⟩).1 7 rfl,
   (recordBatchStreamAdapter_try_new_contract (fun _ => Except.ok ⟨5⟩)
      ⟨3, (0, none), []⟩).2.1 ⟨5⟩ rfl⟩
